import Mathlib

/-!
Verification of the catapult-server excerpt: the block-scorer consensus
arithmetic (src/catapult/chain/BlockScorer.cpp) and the notification
observer adapter (src/catapult/local/NotificationObserverAdapter.cpp).

Machine integers are embedded as Nat with explicit reduction modulo the
machine width at every operation where a wrap can occur.
-/

set_option maxRecDepth 16384

namespace Catapult

/-! ## Notification dispatch (NotificationObserverAdapter.cpp) -/

/-- Modelled from the spec: a notification is a typed, immutable record tagged
with a NotificationChannel bitmask carrying at minimum Validator and Observer
bits (spec section 3); the channel mask lives inside the notification type
word that ObservingNotificationSubscriber.notify inspects via IsSet. The id
field stands for the rest of the payload. -/
structure Notification where
  channel : Nat
  id : Nat
deriving DecidableEq

/-- Modelled from the spec: the Validator bit of the channel bitmask. -/
def NotificationChannel.Validator : Nat := 1

/-- Modelled from the spec: the Observer bit of the channel bitmask. -/
def NotificationChannel.Observer : Nat := 2

/-- IsSet from utils: true when the mask has one of the queried channel bits. -/
def IsSet (mask channel : Nat) : Bool := decide (Nat.land mask channel ≠ 0)

/-- Modelled from the spec: the mutable transition-application context that is
borrowed for the duration of one notify call (spec section 3); its payload is
never inspected by this layer, so a single word represents it. -/
structure ObserverContext where
  direction : Nat

/-- A wrapped notification observer: a single effect-applying method over an
explicit state, with failures surfaced through Except (spec sections 4.6, 7:
an error raised during the processing of one notification propagates). -/
structure NotificationObserver (σ ε : Type) where
  notify : Notification → ObserverContext → σ → Except ε σ

/-- ObservingNotificationSubscriber::notify: drop the notification unless its
channel includes the Observer bit, otherwise forward it verbatim to the
wrapped observer. -/
def ObservingNotificationSubscriber.notify {σ ε : Type}
    (observer : NotificationObserver σ ε) (context : ObserverContext)
    (notification : Notification) (s : σ) : Except ε σ :=
  if IsSet notification.channel NotificationChannel.Observer then
    observer.notify notification context s
  else
    Except.ok s

/-- The publisher feeding its ordered notification stream into the filtering
subscriber: each notification goes through ObservingNotificationSubscriber,
and a raised failure aborts the remaining stream (spec section 4.6). -/
def subscriberRun {σ ε : Type} (observer : NotificationObserver σ ε)
    (context : ObserverContext) : σ → List Notification → Except ε σ
  | s, [] => Except.ok s
  | s, n :: rest =>
    match ObservingNotificationSubscriber.notify observer context n s with
    | Except.ok s2 => subscriberRun observer context s2 rest
    | Except.error e => Except.error e

/-- Sequential delivery of a notification list directly to the wrapped
observer, aborting on the first failure. -/
def observerRun {σ ε : Type} (observer : NotificationObserver σ ε)
    (context : ObserverContext) : σ → List Notification → Except ε σ
  | s, [] => Except.ok s
  | s, n :: rest =>
    match observer.notify n context s with
    | Except.ok s2 => observerRun observer context s2 rest
    | Except.error e => Except.error e

/-- NotificationObserverAdapter: glues the publisher to the wrapped observer
through the filtering subscriber. Modelled from the spec: the publisher
(external collaborator) decomposes an entity into an ordered notification
list (spec section 4.6). -/
structure NotificationObserverAdapter (α σ ε : Type) where
  publish : α → List Notification
  observer : NotificationObserver σ ε

/-- NotificationObserverAdapter::notify: publish the entity into a filtering
subscriber wrapping the observer. -/
def NotificationObserverAdapter.notify {α σ ε : Type}
    (adapter : NotificationObserverAdapter α σ ε) (entityInfo : α)
    (context : ObserverContext) (s : σ) : Except ε σ :=
  subscriberRun adapter.observer context s (adapter.publish entityInfo)

/-- A recording observer that appends every delivered notification to its
state and fails (reporting the deliveries made so far) exactly on the
notifications selected by failOn. -/
def failingRecorder (failOn : Notification → Bool) :
    NotificationObserver (List Notification) (List Notification) where
  notify := fun n _ s => if failOn n then Except.error s else Except.ok (s ++ [n])

/-! ## Machine arithmetic helpers -/

/-- Unsigned 64-bit subtraction: both operands reduced to the machine width,
difference taken modulo two to the 64. -/
def sub64 (a b : Nat) : Nat :=
  (a % 2 ^ 64 + (2 ^ 64 - b % 2 ^ 64)) % 2 ^ 64

/-! ## Block model (the model/Block.h surface BlockScorer.cpp reads) -/

/-- Modelled from the spec: the block fields the scorer reads - a millisecond
timestamp, the 64-bit difficulty, and the signer identity and height used as
the importance-lookup key (spec sections 3, 4.5). -/
structure Block where
  Timestamp : Nat
  Difficulty : Nat
  Signer : Nat
  Height : Nat

/-! ## Fixed-point log2 kernel (FixedPointLog2, spec section 4.1) -/

/-- Fuel-driven binary logarithm, structurally recursive so that it reduces
inside the kernel; with fuel at least the input it agrees with Nat.log2. -/
def log2Fuel : Nat → Nat → Nat
  | 0, _ => 0
  | fuel + 1, n => if 2 ≤ n then log2Fuel fuel (n / 2) + 1 else 0

/-- Modelled from the spec: utils::Log2 (catapult/utils/IntegerMath.h is not
part of this excerpt) - the index of the highest set bit. -/
def Log2 (value : Nat) : Nat := log2Fuel value value

def log2FracTable : List Nat := [
  0, 50710812955883, 101322870614706, 151836556865256, 202252253362243, 252570339543595, 302791192647601, 352915187729875,
  402942697680163, 452874093238988, 502709743014136, 552450013496982, 602095269078658, 651645872066079, 701102182697797, 750464559159723,
  799733357600689, 848908932147865, 897991634922034, 946981816052718, 995879823693164, 1044686004035190, 1093400701323892, 1142024257872211,
  1190557014075367, 1238999308425154, 1287351477524111, 1335613856099548, 1383786777017457, 1431870571296278, 1479865568120558, 1527772094854461,
  1575590477055174, 1623321038486178, 1670964101130400, 1718519985203250, 1765989009165527, 1813371489736220, 1860667741905189, 1907878078945722,
  1955002812426990, 2002042252226388, 2048996706541750, 2095866481903479, 2142651883186540, 2189353213622371, 2235970774810665, 2282504866731064,
  2328955787754738, 2375323834655862, 2421609302622999, 2467812485270367, 2513933674649022, 2559973161257928, 2605931234054944, 2651808180467694,
  2697604286404365, 2743319836264388, 2788955112949042, 2834510397871953, 2879985970969510, 2925382110711186, 2970699094109765, 3015937196731490,
  3061096692706116, 3106177854736872, 3151180954110347, 3196106260706286, 3240954043007296, 3285724568108475, 3330418101726960, 3375034908211382,
  3419575250551258, 3464039390386278, 3508427588015542, 3552740102406690, 3596977191204976, 3641139110742250, 3685226116045878, 3729238460847566,
  3773176397592138, 3817040177446208, 3860830050306804, 3904546264809912, 3948189068338935, 3991758707033107, 4035255425795812, 4078679468302848,
  4122031077010616, 4165310493164244, 4208517956805640, 4251653706781482, 4294717980751142, 4337711015194537, 4380633045419924, 4423484305571626,
  4466265028637701, 4508975446457533, 4551615789729380, 4594186288017843, 4636687169761289, 4679118662279200, 4721480991779471, 4763774383365643,
  4805999061044086, 4848155247731110, 4890243165260031, 4932263034388176, 4974215074803824, 5016099505133106, 5057916542946835, 5099666404767289,
  5141349306074938, 5182965461315116, 5224515083904643, 5265998386238390, 5307415579695791, 5348766874647312, 5390052480460854, 5431272605508120,
  5472427457170925, 5513517241847450, 5554542164958459, 5595502430953458, 5636398243316809, 5677229804573797, 5717997316296644, 5758700979110481,
  5799340992699275, 5839917555811703, 5880430866266986, 5920881120960674, 5961268515870387, 6001593246061518, 6041855505692875, 6082055488022300,
  6122193385412232, 6162269389335225, 6202283690379438, 6242236478254062, 6282127941794727, 6321958268968850, 6361727646880952, 6401436261777933,
  6441084299054302, 6480671943257373, 6520199378092419, 6559666786427784, 6599074350299964, 6638422250918641, 6677710668671684, 6716939783130111,
  6756109773053012, 6795220816392439, 6834273090298254, 6873266771122945, 6912202034426406, 6951079054980674, 6989898006774642, 7028659063018728,
  7067362396149513, 7106008177834343, 7144596578975900, 7183127769716732, 7221601919443759, 7260019196792740, 7298379769652704, 7336683805170356,
  7374931469754449, 7413122929080113, 7451258348093172, 7489337891014410, 7527361721343817, 7565330001864802, 7603242894648372, 7641100561057288,
  7678903161750177, 7716650856685631, 7754343805126266, 7791982165642749, 7829566096117809, 7867095753750202, 7904571295058662, 7941992875885816,
  7979360651402070, 8016674776109476, 8053935403845556, 8091142687787114, 8128296780454013, 8165397833712924, 8202445998781053, 8239441426229839,
  8276384265988623, 8313274667348297, 8350112778964921, 8386898748863321, 8423632724440652, 8460314852469949, 8496945279103640, 8533524149877041,
  8570051609711826, 8606527802919474, 8642952873204686, 8679326963668786, 8715650216813088, 8751922774542255, 8788144778167617, 8824316368410476,
  8860437685405391, 8896508868703428, 8932530057275402, 8968501389515084, 9004423003242395, 9040295035706570, 9076117623589312, 9111890903007906,
  9147615009518334, 9183290078118348, 9218916243250532, 9254493638805350, 9290022398124154, 9325502654002192, 9360934538691576, 9396318183904250,
  9431653720814924, 9466941280063990, 9502180991760418, 9537372985484642, 9572517390291412, 9607614334712638, 9642663946760206, 9677666353928784,
  9712621683198600, 9747530061038210, 9782391613407244, 9817206465759128, 9851974743043796, 9886696569710382, 9921372069709890, 9956001366497850,
  9990584583036956, 10025121841799682, 10059613264770892, 10094058973450418, 10128459088855628, 10162813731523986, 10197123021515572, 10231387078415614,
  10265606021336976, 10299779968922654, 10333909039348232, 10367993350324350, 10402033019099120, 10436028162460564, 10469978896739008, 10503885337809474,
  10537747601094050, 10571565801564252, 10605340053743360, 10639070471708756, 10672757169094220, 10706400259092242, 10739999854456292, 10773556067503100,
  10807069010114894, 10840538793741650, 10873965529403314, 10907349327692004, 10940690298774212, 10973988552392988, 11007244197870098, 11040457344108186,
  11073628099592910, 11106756572395066, 11139842870172708, 11172887100173240, 11205889369235500, 11238849783791846, 11271768449870200, 11304645473096100,
  11337480958694738, 11370275011492976, 11403027735921354, 11435739236016084, 11468409615421042, 11501038977389722, 11533627424787214, 11566175060092130,
  11598681985398550, 11631148302417942, 11663574112481066, 11695959516539880, 11728304615169416, 11760609508569662, 11792874296567420, 11825099078618162,
  11857283953807858, 11889429020854820, 11921534378111506, 11953600123566334, 11985626354845468, 12017613169214608, 12049560663580760, 12081468934494002,
  12113338078149224, 12145168190387878, 12176959366699704, 12208711702224450, 12240425291753578, 12272100229731960, 12303736610259576, 12335334527093178,
  12366894073647966, 12398415342999238, 12429898427884050, 12461343420702834, 12492750413521040, 12524119498070752, 12555450765752288, 12586744307635800,
  12618000214462872, 12649218576648084, 12680399484280590, 12711543027125680, 12742649294626324, 12773718375904716, 12804750359763804, 12835745334688820,
  12866703388848788, 12897624610098026, 12928509085977648, 12959356903717048, 12990168150235384, 13020942912143034, 13051681275743072, 13082383327032708,
  13113049151704744, 13143678835148994, 13174272462453724, 13204830118407062, 13235351887498414, 13265837853919862, 13296288101567552, 13326702714043092,
  13357081774654920, 13387425366419676, 13417733572063560, 13448006474023692, 13478244154449452, 13508446695203816, 13538614177864690, 13568746683726232,
  13598844293800166, 13628907088817084, 13658935149227752, 13688928555204398, 13718887386641996, 13748811723159548, 13778701644101346, 13808557228538238,
  13838378555268886, 13868165702821010, 13897918749452626, 13927637773153288, 13957322851645308, 13986974062384976, 14016591482563778, 14046175189109592,
  14075725258687898, 14105241767702962, 14134724792299026, 14164174408361480, 14193590691518046, 14222973717139928, 14252323560342982, 14281640295988868,
  14310923998686188, 14340174742791630, 14369392602411102, 14398577651400854, 14427729963368608, 14456849611674656, 14485936669432986, 14514991209512364,
  14544013304537446, 14573003026889862, 14601960448709292, 14630885641894554, 14659778678104666, 14688639628759918, 14717468565042926, 14746265557899690,
  14775030678040638, 14803763995941670, 14832465581845192, 14861135505761150, 14889773837468048, 14918380646513974, 14946956002217610, 14975499973669240,
  15004012629731750, 15032494039041636, 15060944270009974, 15089363390823430, 15117751469445222, 15146108573616106, 15174434770855340, 15202730128461652,
  15230994713514200, 15259228592873520, 15287431833182484, 15315604500867236, 15343746662138136, 15371858382990688, 15399939729206476, 15427990766354082,
  15456011559790004, 15484002174659578, 15511962675897874, 15539893128230610, 15567793596175048, 15595664144040886, 15623504835931148, 15651315735743072,
  15679096907168988, 15706848413697190, 15734570318612814, 15762262684998694, 15789925575736230, 15817559053506248, 15845163180789842, 15872738019869228,
  15900283632828586, 15927800081554904, 15955287427738800, 15982745732875364, 16010175058264974, 16037575465014130, 16064947014036252, 16092289766052508,
  16119603781592620, 16146889120995662, 16174145844410860, 16201374011798396, 16228573682930190, 16255744917390694, 16282887774577670, 16310002313702974,
  16337088593793324, 16364146673691082, 16391176612055010, 16418178467361036, 16445152297903018, 16472098161793496, 16499016116964438, 16525906221167996,
  16552768531977246, 16579603106786924, 16606410002814168, 16633189277099246, 16659940986506282, 16686665187723988, 16713361937266378, 16740031291473488,
  16766673306512088, 16793288038376396, 16819875542888776, 16846435875700450, 16872969092292184, 16899475247975002, 16925954397890860, 16952406597013344,
  16978831900148352, 17005230361934776, 17031602036845178, 17057946979186468, 17084265243100572, 17110556882565102, 17136821951394014, 17163060503238280,
  17189272591586534, 17215458269765734, 17241617590941812, 17267750608120316, 17293857374147062, 17319937941708770, 17345992363333702, 17372020691392304,
  17398022978097824, 17423999275506958, 17449949635520456, 17475874109883760, 17501772750187616, 17527645607868692, 17553492734210186, 17579314180342444,
  17605109997243562, 17630880235739990, 17656624946507132, 17682344180069950, 17708037986803548, 17733706416933776, 17759349520537810, 17784967347544742,
  17810559947736166, 17836127370746754, 17861669666064830, 17887186883032958, 17912679070848498, 17938146278564188, 17963588555088704, 17989005949187222,
  18014398509481984]

/-- The fractional part of log2 for a normalized input y with the top window
bit set (y between 2 to the 31 inclusive and 2 to the 32 exclusive), scaled
by 2 to the 54: piecewise-linear interpolation between the table nodes, the
node index being the top nine fractional bits of y. -/
def Log2FracPart (y : Nat) : Nat :=
  let k := y / 4194304
  let a := log2FracTable.getD (k - 512) 0
  let b := log2FracTable.getD (k - 511) 0
  a + (y - k * 4194304) * (b - a) / 4194304

/-- Modelled from the spec: utils::Log2TimesPowerOfTwo, the FixedPointLog2
kernel of spec section 4.1, declared in catapult/utils/IntegerMath.h which is
not part of this excerpt. The spec requires a deterministic integer
approximation of log2 of a nonzero 32-bit value scaled by 2 to the power s,
accurate to roughly one part per million, and section 9 allows any algorithm
(lookup tables included) meeting that bound together with monotonicity; this
realisation normalizes the value to the window with the top bit set and
interpolates the fractional bits in log2FracTable. -/
def Log2TimesPowerOfTwo (value : Nat) (s : Nat) : Nat :=
  let n := Log2 value
  n * 2 ^ s + Log2FracPart (value * 2 ^ (31 - n)) * 2 ^ s / 2 ^ 54

/-! ## Generation-hash extraction and hit (BlockScorer.cpp) -/

/-- A generation hash is the list of its 32 bytes, most significant first. -/
def ValidHash (generationHash : List Nat) : Prop :=
  generationHash.length = 32 ∧ ∀ b ∈ generationHash, b < 256

/-- NumLeadingZeros loop body: scan the bytes from the front; on the first
nonzero byte return the bit position of its highest set bit counted from the
front of the hash, otherwise 256 once every byte was seen. -/
def NumLeadingZerosAux : Nat → List Nat → Nat
  | _, [] => 256
  | i, b :: rest => if b ≠ 0 then 8 * i + 7 - Log2 b else NumLeadingZerosAux (i + 1) rest

/-- NumLeadingZeros from BlockScorer.cpp. -/
def NumLeadingZeros (generationHash : List Nat) : Nat :=
  NumLeadingZerosAux 0 generationHash

/-- ExtractFromHashAtPosition: the four bytes starting at index, read as a
big-endian 32-bit value (the source reads a little-endian word and byte-swaps). -/
def ExtractFromHashAtPosition (hash : List Nat) (index : Nat) : Nat :=
  hash.getD index 0 * 2 ^ 24 + hash.getD (index + 1) 0 * 2 ^ 16 +
    hash.getD (index + 2) 0 * 2 ^ 8 + hash.getD (index + 3) 0

/-- GenerationHashInfo from BlockScorer.cpp. -/
structure GenerationHashInfo where
  Value : Nat
  NumLeadingZeros : Nat

/-- ExtractGenerationHashInfo from BlockScorer.cpp: the 32-bit window starting
at the first nonzero bit (shift-and-combine with the following byte), or the
last four bytes when the first nonzero bit lies in them; the 32-bit
operations wrap modulo 2 to the 32. -/
def ExtractGenerationHashInfo (generationHash : List Nat) : GenerationHashInfo :=
  let numLeadingZeros := NumLeadingZeros generationHash
  if 224 ≤ numLeadingZeros then
    { Value := ExtractFromHashAtPosition generationHash 28, NumLeadingZeros := 224 }
  else
    let quotient := numLeadingZeros / 8
    let remainder := numLeadingZeros % 8
    let value := ExtractFromHashAtPosition generationHash quotient
    let value := value * 2 ^ remainder % 2 ^ 32
    let value :=
      (value + generationHash.getD (quotient + 4) 0 / 2 ^ (8 - remainder)) % 2 ^ 32
    { Value := value, NumLeadingZeros := numLeadingZeros }

/-- CalculateHit from BlockScorer.cpp: edge cases for an all-zero and an
all-one window, otherwise the scaled absolute log of the hash seen as a
fraction, divided by log2(e) as the exact integer ratio; the subtraction is
64-bit, the product and division run in a 128-bit intermediate, and the
result narrows to 64 bits. -/
def CalculateHit (generationHash : List Nat) : Nat :=
  let hashInfo := ExtractGenerationHashInfo generationHash
  if hashInfo.Value = 0 then 2 ^ 64 - 1
  else if hashInfo.Value = 4294967295 then 0
  else
    let logValue := Log2TimesPowerOfTwo hashInfo.Value 54
    let r := sub64 ((32 + hashInfo.NumLeadingZeros) * 2 ^ 54) logValue
    r * 10000000000000000 % 2 ^ 128 / 14426950408889634 % 2 ^ 64

/-! ## Score and target (BlockScorer.cpp) -/

/-- CalculateScore from BlockScorer.cpp: zero for a non-causal block,
otherwise the 64-bit difference between the difficulty and the whole elapsed
seconds; timestamps carry milliseconds (TimeSpan::FromDifference followed by
seconds() divides the millisecond difference by 1000). -/
def CalculateScore (parentBlock currentBlock : Block) : Nat :=
  if currentBlock.Timestamp ≤ parentBlock.Timestamp then 0
  else sub64 currentBlock.Difficulty
    (sub64 currentBlock.Timestamp parentBlock.Timestamp / 1000)

/-- Modelled from the spec: the chain configuration fields the scorer reads
(spec section 6), plus SmoothedMultiplier: when BlockTimeSmoothingFactor is
nonzero the source computes the smoothing multiplier with double-precision
exponentials (spec section 4.4); floating point is outside this embedding, so
the already-cast 64-bit multiplier value is supplied by the configuration as
a function of the elapsed seconds. -/
structure BlockChainConfiguration where
  BlockGenerationTargetTimeMillis : Nat
  BlockTimeSmoothingFactor : Nat
  TotalChainImportance : Nat
  SmoothedMultiplier : Nat → Nat

/-- GetMultiplier from BlockScorer.cpp: 2 to the 54 when smoothing is off,
otherwise the configured smoothed 64-bit value; shifted left by 10 bits. -/
def GetMultiplier (timeDiffSeconds : Nat) (config : BlockChainConfiguration) : Nat :=
  if config.BlockTimeSmoothingFactor = 0 then 2 ^ 54 * 2 ^ 10
  else config.SmoothedMultiplier timeDiffSeconds % 2 ^ 64 * 2 ^ 10

/-- CalculateTarget (time-span overload) from BlockScorer.cpp: elapsed
seconds times importance times multiplier times 8999999998, in that order and
each product reduced to the 128-bit target width, then divided by the total
chain importance and by the difficulty. -/
def CalculateTarget (timeSpanMillis difficulty importance : Nat)
    (config : BlockChainConfiguration) : Nat :=
  let seconds := timeSpanMillis / 1000
  let target := seconds
  let target := target * importance % 2 ^ 128
  let target := target * GetMultiplier seconds config % 2 ^ 128
  let target := target * 8999999998 % 2 ^ 128
  let target := target / config.TotalChainImportance
  target / difficulty

/-- CalculateTarget (block overload) from BlockScorer.cpp: zero for a
non-causal block, otherwise the time-span overload on the timestamp
difference. -/
def CalculateTargetFromBlocks (parentBlock currentBlock : Block)
    (importance : Nat) (config : BlockChainConfiguration) : Nat :=
  if currentBlock.Timestamp ≤ parentBlock.Timestamp then 0
  else CalculateTarget (sub64 currentBlock.Timestamp parentBlock.Timestamp)
    currentBlock.Difficulty importance config

/-- BlockHitPredicate (block overload) from BlockScorer.cpp: look up the
importance of the signer at the block height, compare the hit from the
generation hash with the target from the blocks. -/
def BlockHitPredicate (importanceLookup : Nat → Nat → Nat)
    (config : BlockChainConfiguration) (parentBlock block : Block)
    (generationHash : List Nat) : Bool :=
  let importance := importanceLookup block.Signer block.Height
  let hit := CalculateHit generationHash
  let target := CalculateTargetFromBlocks parentBlock block importance config
  decide (hit < target)

/-! ## Theorems: notification dispatch -/

/-- Running the publisher stream through the filtering subscriber equals
delivering the Observer-tagged subsequence directly to the wrapped observer. -/
theorem subscriberRun_eq_observerRun_filter {σ ε : Type}
    (observer : NotificationObserver σ ε) (context : ObserverContext)
    (s : σ) (ns : List Notification) :
    subscriberRun observer context s ns =
      observerRun observer context s
        (ns.filter fun n => IsSet n.channel NotificationChannel.Observer) := by
  induction ns generalizing s with
  | nil => rfl
  | cons n rest ih =>
    by_cases h : IsSet n.channel NotificationChannel.Observer
    · have hf : (n :: rest).filter (fun n => IsSet n.channel NotificationChannel.Observer)
          = n :: rest.filter (fun n => IsSet n.channel NotificationChannel.Observer) := by
        simp [List.filter_cons, h]
      rw [hf]
      simp only [subscriberRun, observerRun, ObservingNotificationSubscriber.notify, if_pos h]
      cases observer.notify n context s with
      | ok s2 => exact ih s2
      | error e => rfl
    · have hf : (n :: rest).filter (fun n => IsSet n.channel NotificationChannel.Observer)
          = rest.filter (fun n => IsSet n.channel NotificationChannel.Observer) := by
        simp [List.filter_cons, h]
      rw [hf]
      simp only [subscriberRun, ObservingNotificationSubscriber.notify, if_neg h]
      exact ih s

/-- C1: for every entity and every ordered notification sequence the publisher
produces for it, the adapter notify forwards to the wrapped observer exactly
the subsequence of notifications whose channel includes the Observer bit, in
the publisher order, with no reordering, duplication, or buffering, and the
dropped notifications have no effect: the adapter run equals a direct run of
the wrapped observer on the Observer-filtered subsequence. -/
theorem adapter_notify_filters_observer_channel {α σ ε : Type}
    (adapter : NotificationObserverAdapter α σ ε) (entityInfo : α)
    (context : ObserverContext) (s : σ) :
    adapter.notify entityInfo context s =
      observerRun adapter.observer context s
        ((adapter.publish entityInfo).filter
          fun n => IsSet n.channel NotificationChannel.Observer) :=
  subscriberRun_eq_observerRun_filter adapter.observer context s
    (adapter.publish entityInfo)

/-- Delivering a failure-free prefix to the failing recorder accumulates the
prefix, and the first failing notification aborts with the deliveries made. -/
theorem observerRun_failingRecorder (failOn : Notification → Bool)
    (context : ObserverContext) (bad : Notification) (d2 : List Notification)
    (hbad : failOn bad = true) :
    ∀ (d1 : List Notification) (s : List Notification),
      (∀ n ∈ d1, failOn n = false) →
      observerRun (failingRecorder failOn) context s (d1 ++ bad :: d2) =
        Except.error (s ++ d1) := by
  intro d1
  induction d1 with
  | nil =>
    intro s _
    have hnotify : (failingRecorder failOn).notify bad context s = Except.error s := by
      simp [failingRecorder, hbad]
    simp only [List.nil_append, observerRun, hnotify, List.append_nil]
  | cons n rest ih =>
    intro s hall
    have hn : failOn n = false := hall n (by simp)
    have hnotify : (failingRecorder failOn).notify n context s = Except.ok (s ++ [n]) := by
      simp [failingRecorder, hn]
    rw [List.cons_append]
    simp only [observerRun, hnotify]
    rw [ih (s ++ [n]) fun m hm => hall m (by simp [hm])]
    simp

/-- C5: if the wrapped observer raises a failure while processing a
notification of the entity sequence, the failure propagates to the caller of
the adapter notify and no later notification is delivered to the wrapped
observer for that entity; there is no retry or recovery inside the adapter.
With a recording observer whose first failure happens at the notification
bad, the adapter returns exactly that failure, carrying the deliveries made
strictly before bad and nothing from the rest of the sequence. -/
theorem adapter_notify_failure_propagates {α : Type}
    (publish : α → List Notification) (failOn : Notification → Bool)
    (entityInfo : α) (context : ObserverContext)
    (d1 d2 : List Notification) (bad : Notification)
    (hsplit : (publish entityInfo).filter
        (fun n => IsSet n.channel NotificationChannel.Observer) = d1 ++ bad :: d2)
    (hd1 : ∀ n ∈ d1, failOn n = false)
    (hbad : failOn bad = true) :
    NotificationObserverAdapter.notify
        { publish := publish, observer := failingRecorder failOn }
        entityInfo context [] = Except.error d1 := by
  rw [NotificationObserverAdapter.notify]
  rw [subscriberRun_eq_observerRun_filter]
  simp only [hsplit]
  simpa using observerRun_failingRecorder failOn context bad d2 hbad d1 [] hd1

/-- C5 witness: the spec example with an extra leading Observer notification:
the publisher emits a Validator-only notification, then Observer
notifications zero, two and three; the observer fails on notification two;
the caller sees the failure and the wrapped observer received exactly
notification zero. -/
theorem adapter_notify_failure_propagates_witness :
    (([⟨2, 0⟩, ⟨1, 1⟩, ⟨2, 2⟩, ⟨3, 3⟩] : List Notification).filter
        (fun n => IsSet n.channel NotificationChannel.Observer) =
        [(⟨2, 0⟩ : Notification)] ++ (⟨2, 2⟩ : Notification) :: [(⟨3, 3⟩ : Notification)]) ∧
      NotificationObserverAdapter.notify
        { publish := fun _ : Unit => [⟨2, 0⟩, ⟨1, 1⟩, ⟨2, 2⟩, ⟨3, 3⟩],
          observer := failingRecorder fun n => decide (n.id = 2) }
        () ⟨0⟩ [] = Except.error [⟨2, 0⟩] :=
  ⟨by decide,
    adapter_notify_failure_propagates (fun _ : Unit => [⟨2, 0⟩, ⟨1, 1⟩, ⟨2, 2⟩, ⟨3, 3⟩])
      (fun n => decide (n.id = 2)) () ⟨0⟩ [⟨2, 0⟩] [⟨3, 3⟩] ⟨2, 2⟩
      (by decide) (by decide) (by decide)⟩

/-! ## Theorems: score and target basics -/

theorem two_pow_64_eq : (2 : Nat) ^ 64 = 18446744073709551616 := by norm_num

/-- The 64-bit subtraction agrees with natural subtraction when it cannot
underflow. -/
theorem sub64_eq_sub {a b : Nat} (hb : b ≤ a) (ha : a < 2 ^ 64) :
    sub64 a b = a - b := by
  have hb64 : b < 2 ^ 64 := lt_of_le_of_lt hb ha
  rw [sub64, Nat.mod_eq_of_lt ha, Nat.mod_eq_of_lt hb64]
  rw [two_pow_64_eq] at ha hb64 ⊢
  omega

/-- C4: for every pair of blocks with the current timestamp at most the
parent timestamp, the block overload of CalculateTarget returns 0 and
BlockHitPredicate returns false, for every generation hash, configuration
and importance lookup - no hit is strictly below a zero target. -/
theorem blockHitPredicate_false_of_nonpositive_elapsed
    (importanceLookup : Nat → Nat → Nat) (config : BlockChainConfiguration)
    (parentBlock block : Block) (generationHash : List Nat)
    (h : block.Timestamp ≤ parentBlock.Timestamp) :
    CalculateTargetFromBlocks parentBlock block
        (importanceLookup block.Signer block.Height) config = 0 ∧
      BlockHitPredicate importanceLookup config parentBlock block generationHash = false := by
  have ht : ∀ importance, CalculateTargetFromBlocks parentBlock block importance config = 0 := by
    intro importance
    simp [CalculateTargetFromBlocks, h]
  exact ⟨ht _, by simp [BlockHitPredicate, ht]⟩

/-- C4 witness: a parent at 10 ms and a current block at 5 ms with nonzero
difficulty and importance: the target is 0 and the predicate rejects. -/
theorem blockHitPredicate_false_of_nonpositive_elapsed_witness :
    CalculateTargetFromBlocks ⟨10, 5, 3, 4⟩ ⟨5, 100, 3, 4⟩
        ((fun _ _ => 7) (Block.Signer ⟨5, 100, 3, 4⟩) (Block.Height ⟨5, 100, 3, 4⟩))
        ⟨15000, 0, 1, fun _ => 0⟩ = 0 ∧
      BlockHitPredicate (fun _ _ => 7) ⟨15000, 0, 1, fun _ => 0⟩
        ⟨10, 5, 3, 4⟩ ⟨5, 100, 3, 4⟩ [] = false :=
  blockHitPredicate_false_of_nonpositive_elapsed (fun _ _ => 7)
    ⟨15000, 0, 1, fun _ => 0⟩ ⟨10, 5, 3, 4⟩ ⟨5, 100, 3, 4⟩ [] (by decide)

/-- C9: whenever the injected importance lookup returns 0 for the signer and
height of the block, the computed target is exactly 0 and BlockHitPredicate
returns exactly false, for every parent, block, generation hash and
configuration - no 64-bit hit, 0 included, is strictly below a zero target. -/
theorem blockHitPredicate_false_of_zero_importance
    (importanceLookup : Nat → Nat → Nat) (config : BlockChainConfiguration)
    (parentBlock block : Block) (generationHash : List Nat)
    (h0 : importanceLookup block.Signer block.Height = 0) :
    CalculateTargetFromBlocks parentBlock block
        (importanceLookup block.Signer block.Height) config = 0 ∧
      BlockHitPredicate importanceLookup config parentBlock block generationHash = false := by
  have htar : ∀ ms d, CalculateTarget ms d 0 config = 0 := by
    intro ms d
    simp [CalculateTarget]
  have ht : CalculateTargetFromBlocks parentBlock block 0 config = 0 := by
    unfold CalculateTargetFromBlocks
    split
    · rfl
    · exact htar _ _
  rw [h0]
  exact ⟨ht, by simp [BlockHitPredicate, h0, ht]⟩

/-- C9 witness: a causal block pair with nonzero difficulty and an
all-FF generation hash, but importance 0: the target is 0 and the predicate
rejects. -/
theorem blockHitPredicate_false_of_zero_importance_witness :
    CalculateTargetFromBlocks ⟨0, 5, 3, 4⟩ ⟨60000, 100, 3, 4⟩
        ((fun _ _ => 0) (Block.Signer ⟨60000, 100, 3, 4⟩) (Block.Height ⟨60000, 100, 3, 4⟩))
        ⟨15000, 0, 1, fun _ => 0⟩ = 0 ∧
      BlockHitPredicate (fun _ _ => 0) ⟨15000, 0, 1, fun _ => 0⟩
        ⟨0, 5, 3, 4⟩ ⟨60000, 100, 3, 4⟩ (List.replicate 32 255) = false :=
  blockHitPredicate_false_of_zero_importance (fun _ _ => 0)
    ⟨15000, 0, 1, fun _ => 0⟩ ⟨0, 5, 3, 4⟩ ⟨60000, 100, 3, 4⟩
    (List.replicate 32 255) (by decide)

/-- C6: CalculateScore returns 0 when the current timestamp is at most the
parent timestamp; otherwise it returns the difficulty minus the whole
elapsed seconds as a 64-bit subtraction, which is the exact difference
whenever the elapsed seconds do not exceed the difficulty. -/
theorem calculateScore_spec (parentBlock currentBlock : Block)
    (hc : currentBlock.Timestamp < 2 ^ 64) (hd : currentBlock.Difficulty < 2 ^ 64) :
    (currentBlock.Timestamp ≤ parentBlock.Timestamp →
      CalculateScore parentBlock currentBlock = 0) ∧
    (parentBlock.Timestamp < currentBlock.Timestamp →
      CalculateScore parentBlock currentBlock =
        (currentBlock.Difficulty +
          (2 ^ 64 - (currentBlock.Timestamp - parentBlock.Timestamp) / 1000)) % 2 ^ 64 ∧
      ((currentBlock.Timestamp - parentBlock.Timestamp) / 1000 ≤ currentBlock.Difficulty →
        CalculateScore parentBlock currentBlock =
          currentBlock.Difficulty -
            (currentBlock.Timestamp - parentBlock.Timestamp) / 1000)) := by
  constructor
  · intro h
    simp [CalculateScore, h]
  · intro h
    have hnle : ¬ currentBlock.Timestamp ≤ parentBlock.Timestamp := not_le.mpr h
    have h1 : sub64 currentBlock.Timestamp parentBlock.Timestamp =
        currentBlock.Timestamp - parentBlock.Timestamp :=
      sub64_eq_sub (le_of_lt h) hc
    have hs : (currentBlock.Timestamp - parentBlock.Timestamp) / 1000 < 2 ^ 64 :=
      lt_of_le_of_lt (Nat.div_le_self _ _) (lt_of_le_of_lt (Nat.sub_le _ _) hc)
    have hscore : CalculateScore parentBlock currentBlock =
        (currentBlock.Difficulty +
          (2 ^ 64 - (currentBlock.Timestamp - parentBlock.Timestamp) / 1000)) % 2 ^ 64 := by
      rw [CalculateScore, if_neg hnle, h1, sub64, Nat.mod_eq_of_lt hd, Nat.mod_eq_of_lt hs]
    refine ⟨hscore, fun hle => ?_⟩
    rw [hscore]
    rw [two_pow_64_eq] at hd hs ⊢
    omega

/-- C6 witness: parent at 0 ms, current at 5000 ms with difficulty 100: the
score is the exact difference 100 - 5 = 95, and the non-causal direction
gives 0. -/
theorem calculateScore_spec_witness :
    ((Block.Timestamp ⟨5000, 100, 0, 0⟩ ≤ Block.Timestamp (⟨0, 7, 0, 0⟩ : Block) →
      CalculateScore ⟨0, 7, 0, 0⟩ ⟨5000, 100, 0, 0⟩ = 0) ∧
    (Block.Timestamp (⟨0, 7, 0, 0⟩ : Block) < Block.Timestamp ⟨5000, 100, 0, 0⟩ →
      CalculateScore ⟨0, 7, 0, 0⟩ ⟨5000, 100, 0, 0⟩ =
        (Block.Difficulty ⟨5000, 100, 0, 0⟩ +
          (2 ^ 64 - (Block.Timestamp ⟨5000, 100, 0, 0⟩ -
            Block.Timestamp (⟨0, 7, 0, 0⟩ : Block)) / 1000)) % 2 ^ 64 ∧
      ((Block.Timestamp ⟨5000, 100, 0, 0⟩ -
          Block.Timestamp (⟨0, 7, 0, 0⟩ : Block)) / 1000 ≤
          Block.Difficulty ⟨5000, 100, 0, 0⟩ →
        CalculateScore ⟨0, 7, 0, 0⟩ ⟨5000, 100, 0, 0⟩ =
          Block.Difficulty ⟨5000, 100, 0, 0⟩ -
            (Block.Timestamp ⟨5000, 100, 0, 0⟩ -
              Block.Timestamp (⟨0, 7, 0, 0⟩ : Block)) / 1000))) :=
  calculateScore_spec ⟨0, 7, 0, 0⟩ ⟨5000, 100, 0, 0⟩ (by norm_num) (by norm_num)

/-- C10: when the current block is causal but the elapsed whole seconds
exceed the difficulty, CalculateScore neither returns 0 nor saturates: the
64-bit subtraction wraps, giving 2 to the 64 minus the excess. -/
theorem calculateScore_wraps (parentBlock currentBlock : Block)
    (hc : currentBlock.Timestamp < 2 ^ 64) (hd : currentBlock.Difficulty < 2 ^ 64)
    (h : parentBlock.Timestamp < currentBlock.Timestamp)
    (hlt : currentBlock.Difficulty <
      (currentBlock.Timestamp - parentBlock.Timestamp) / 1000) :
    CalculateScore parentBlock currentBlock =
      2 ^ 64 - ((currentBlock.Timestamp - parentBlock.Timestamp) / 1000 -
        currentBlock.Difficulty) ∧
    CalculateScore parentBlock currentBlock ≠ 0 := by
  have hnle : ¬ currentBlock.Timestamp ≤ parentBlock.Timestamp := not_le.mpr h
  have h1 : sub64 currentBlock.Timestamp parentBlock.Timestamp =
      currentBlock.Timestamp - parentBlock.Timestamp :=
    sub64_eq_sub (le_of_lt h) hc
  have hs : (currentBlock.Timestamp - parentBlock.Timestamp) / 1000 < 2 ^ 64 :=
    lt_of_le_of_lt (Nat.div_le_self _ _) (lt_of_le_of_lt (Nat.sub_le _ _) hc)
  have hscore : CalculateScore parentBlock currentBlock =
      (currentBlock.Difficulty +
        (2 ^ 64 - (currentBlock.Timestamp - parentBlock.Timestamp) / 1000)) % 2 ^ 64 := by
    rw [CalculateScore, if_neg hnle, h1, sub64, Nat.mod_eq_of_lt hd, Nat.mod_eq_of_lt hs]
  rw [hscore]
  rw [two_pow_64_eq] at hd hs ⊢
  omega

/-- C10 witness: parent at 0 ms, current at 2000000 ms (2000 elapsed
seconds) with difficulty 1000: the score wraps to 2 to the 64 minus 1000 and
is nonzero. -/
theorem calculateScore_wraps_witness :
    CalculateScore ⟨0, 7, 0, 0⟩ ⟨2000000, 1000, 0, 0⟩ =
      2 ^ 64 - ((Block.Timestamp ⟨2000000, 1000, 0, 0⟩ -
        Block.Timestamp (⟨0, 7, 0, 0⟩ : Block)) / 1000 -
        Block.Difficulty ⟨2000000, 1000, 0, 0⟩) ∧
    CalculateScore ⟨0, 7, 0, 0⟩ ⟨2000000, 1000, 0, 0⟩ ≠ 0 :=
  calculateScore_wraps ⟨0, 7, 0, 0⟩ ⟨2000000, 1000, 0, 0⟩
    (by norm_num) (by norm_num) (by norm_num) (by norm_num)

/-! ## Theorems: the fixed-point log2 kernel -/

/-- With enough fuel the structural binary logarithm is Nat.log2. -/
theorem log2Fuel_eq_log2 : ∀ (fuel n : Nat), n ≤ fuel → log2Fuel fuel n = Nat.log2 n := by
  intro fuel
  induction fuel with
  | zero =>
    intro n h
    have hn : n = 0 := Nat.le_zero.mp h
    subst hn
    conv_rhs => rw [Nat.log2]
    simp [log2Fuel]
  | succ fuel ih =>
    intro n h
    show (if 2 ≤ n then log2Fuel fuel (n / 2) + 1 else 0) = Nat.log2 n
    by_cases h2 : 2 ≤ n
    · rw [if_pos h2, ih (n / 2) (by omega)]
      conv_rhs => rw [Nat.log2]
      rw [if_pos h2]
    · rw [if_neg h2]
      conv_rhs => rw [Nat.log2]
      rw [if_neg h2]

/-- The modelled Log2 is Nat.log2. -/
theorem Log2_eq_log2 (value : Nat) : Log2 value = Nat.log2 value :=
  log2Fuel_eq_log2 value value le_rfl

theorem log2FracTable_length : log2FracTable.length = 513 := by rfl

theorem log2FracTable_last : log2FracTable.getD 512 0 = 18014398509481984 := by rfl

/-- Adjacent interpolation nodes grow by at least twice the segment width. -/
theorem log2FracTable_adj : ∀ i, i < 512 →
    log2FracTable.getD i 0 + 8388608 ≤ log2FracTable.getD (i + 1) 0 := by decide

/-- The interpolation nodes are monotone. -/
theorem log2FracTable_mono : ∀ (d i : Nat), i + d ≤ 512 →
    log2FracTable.getD i 0 ≤ log2FracTable.getD (i + d) 0 := by
  intro d
  induction d with
  | zero => intro i _; simp
  | succ d ih =>
    intro i h
    have h1 : log2FracTable.getD i 0 ≤ log2FracTable.getD (i + d) 0 := ih i (by omega)
    have h2 := log2FracTable_adj (i + d) (by omega)
    exact le_trans h1 (le_trans (Nat.le_add_right _ 8388608) h2)

/-- Monotonicity of the nodes, in index form. -/
theorem log2FracTable_mono_of_le (i j : Nat) (hij : i ≤ j) (hj : j ≤ 512) :
    log2FracTable.getD i 0 ≤ log2FracTable.getD j 0 := by
  have h := log2FracTable_mono (j - i) i (by omega)
  rwa [show i + (j - i) = j from by omega] at h

/-- Unfolding equation for the interpolation. -/
theorem Log2FracPart_def (y : Nat) : Log2FracPart y =
    log2FracTable.getD (y / 4194304 - 512) 0 +
      (y - y / 4194304 * 4194304) *
        (log2FracTable.getD (y / 4194304 - 511) 0 -
          log2FracTable.getD (y / 4194304 - 512) 0) / 4194304 := rfl

/-- On a normalized window the interpolation stays at least two below the
right node of its segment. -/
theorem Log2FracPart_upper (y : Nat) (hy1 : 2 ^ 31 ≤ y) (hy2 : y < 2 ^ 32) :
    Log2FracPart y ≤ log2FracTable.getD (y / 4194304 - 511) 0 - 2 := by
  obtain ⟨k, hk⟩ : ∃ k, y / 4194304 = k := ⟨_, rfl⟩
  have hk1 : 512 ≤ k := by omega
  have hk2 : k ≤ 1023 := by omega
  obtain ⟨a, ha⟩ : ∃ a, log2FracTable.getD (k - 512) 0 = a := ⟨_, rfl⟩
  obtain ⟨b, hb⟩ : ∃ b, log2FracTable.getD (k - 511) 0 = b := ⟨_, rfl⟩
  have hadj : a + 8388608 ≤ b := by
    have h := log2FracTable_adj (k - 512) (by omega)
    rwa [show k - 512 + 1 = k - 511 from by omega, ha, hb] at h
  obtain ⟨r, hr⟩ : ∃ r, y - k * 4194304 = r := ⟨_, rfl⟩
  have hrle : r ≤ 4194303 := by omega
  have h1 : r * (b - a) ≤ 4194303 * (b - a) := Nat.mul_le_mul_right _ hrle
  have h2 : 4194303 * (b - a) ≤ 4194304 * (b - a - 2) := by omega
  obtain ⟨p, hp⟩ : ∃ p, r * (b - a) = p := ⟨_, rfl⟩
  have h3 : p / 4194304 ≤ b - a - 2 := by
    have h4 : p / 4194304 ≤ 4194304 * (b - a - 2) / 4194304 :=
      Nat.div_le_div_right (le_trans (hp ▸ h1) h2)
    rwa [Nat.mul_div_cancel_left _ (by norm_num : 0 < 4194304)] at h4
  rw [Log2FracPart_def, hk, ha, hb, hr, hp]
  omega

/-- The interpolation is at least the left node of its segment. -/
theorem Log2FracPart_lower (y : Nat) :
    log2FracTable.getD (y / 4194304 - 512) 0 ≤ Log2FracPart y := by
  rw [Log2FracPart_def]
  exact Nat.le_add_right _ _

/-- On a normalized window the fractional part stays at least two below the
full scale. -/
theorem Log2FracPart_le (y : Nat) (hy1 : 2 ^ 31 ≤ y) (hy2 : y < 2 ^ 32) :
    Log2FracPart y ≤ 2 ^ 54 - 2 := by
  have h1 := Log2FracPart_upper y hy1 hy2
  have hk1 : 512 ≤ y / 4194304 := by omega
  have hk2 : y / 4194304 ≤ 1023 := by omega
  have h2 : log2FracTable.getD (y / 4194304 - 511) 0 ≤ 18014398509481984 := by
    have h := log2FracTable_mono_of_le (y / 4194304 - 511) 512 (by omega) le_rfl
    rwa [log2FracTable_last] at h
  omega

/-- Strict growth of the interpolation on normalized windows: one step in the
window moves the fractional part up by at least two. -/
theorem Log2FracPart_gap (y1 y2 : Nat) (hy1 : 2 ^ 31 ≤ y1) (h12 : y1 < y2)
    (hy2 : y2 < 2 ^ 32) : Log2FracPart y1 + 2 ≤ Log2FracPart y2 := by
  obtain ⟨k1, hk1⟩ : ∃ k, y1 / 4194304 = k := ⟨_, rfl⟩
  obtain ⟨k2, hk2⟩ : ∃ k, y2 / 4194304 = k := ⟨_, rfl⟩
  have hb1 : 512 ≤ k1 := by omega
  have hb2 : k2 ≤ 1023 := by omega
  have hkk : k1 ≤ k2 := by omega
  by_cases hsame : k1 = k2
  · subst hsame
    obtain ⟨a, ha⟩ : ∃ a, log2FracTable.getD (k1 - 512) 0 = a := ⟨_, rfl⟩
    obtain ⟨b, hb⟩ : ∃ b, log2FracTable.getD (k1 - 511) 0 = b := ⟨_, rfl⟩
    have hadj : a + 8388608 ≤ b := by
      have h := log2FracTable_adj (k1 - 512) (by omega)
      rwa [show k1 - 512 + 1 = k1 - 511 from by omega, ha, hb] at h
    obtain ⟨r1, hr1⟩ : ∃ r, y1 - k1 * 4194304 = r := ⟨_, rfl⟩
    obtain ⟨r2, hr2⟩ : ∃ r, y2 - k1 * 4194304 = r := ⟨_, rfl⟩
    have hrr : r1 + 1 ≤ r2 := by omega
    have hmul : (r1 + 1) * (b - a) ≤ r2 * (b - a) := Nat.mul_le_mul_right _ hrr
    rw [add_mul, one_mul] at hmul
    obtain ⟨p1, hp1⟩ : ∃ p, r1 * (b - a) = p := ⟨_, rfl⟩
    obtain ⟨p2, hp2⟩ : ∃ p, r2 * (b - a) = p := ⟨_, rfl⟩
    rw [hp1, hp2] at hmul
    rw [Log2FracPart_def, Log2FracPart_def, hk1, hk2, ha, hb, hr1, hr2, hp1, hp2]
    omega
  · have hlt : k1 < k2 := lt_of_le_of_ne hkk hsame
    have hup := Log2FracPart_upper y1 hy1 (by omega)
    have hlow := Log2FracPart_lower y2
    have hmid : log2FracTable.getD (y1 / 4194304 - 511) 0 ≤
        log2FracTable.getD (y2 / 4194304 - 512) 0 := by
      rw [hk1, hk2]
      exact log2FracTable_mono_of_le (k1 - 511) (k2 - 512) (by omega) (by omega)
    have hge : 8388608 ≤ log2FracTable.getD (y1 / 4194304 - 511) 0 := by
      have h := log2FracTable_adj (y1 / 4194304 - 512) (by omega)
      rw [show y1 / 4194304 - 512 + 1 = y1 / 4194304 - 511 from by omega] at h
      omega
    omega

/-- The binary logarithm of a 32-bit window with the top bit set is 31. -/
theorem log2_eq_31 {w : Nat} (h1 : 2 ^ 31 ≤ w) (h2 : w < 2 ^ 32) :
    Nat.log2 w = 31 := by
  rw [Nat.log2_eq_log_two]
  exact Nat.log_eq_of_pow_le_of_lt_pow h1 h2

/-- The kernel splits into the integer and the interpolated fractional part. -/
theorem Log2TimesPowerOfTwo_eq_add (w : Nat) : Log2TimesPowerOfTwo w 54 =
    Nat.log2 w * 2 ^ 54 + Log2FracPart (w * 2 ^ (31 - Nat.log2 w)) := by
  show Log2 w * 2 ^ 54 + Log2FracPart (w * 2 ^ (31 - Log2 w)) * 2 ^ 54 / 2 ^ 54 = _
  rw [Log2_eq_log2, Nat.mul_div_cancel _ (by norm_num : 0 < 2 ^ 54)]

/-- On a window with the top bit set the kernel is 31 times the scale plus
the interpolated fraction of the window itself. -/
theorem Log2TimesPowerOfTwo_window (w : Nat) (h1 : 2 ^ 31 ≤ w) (h2 : w < 2 ^ 32) :
    Log2TimesPowerOfTwo w 54 = 31 * 2 ^ 54 + Log2FracPart w := by
  rw [Log2TimesPowerOfTwo_eq_add, log2_eq_31 h1 h2]
  norm_num

/-- Normalizing a nonzero 32-bit value by its leading zeros lands in the
window with the top bit set. -/
theorem normalized_range (w : Nat) (h0 : w ≠ 0) (h2 : w < 2 ^ 32) :
    2 ^ 31 ≤ w * 2 ^ (31 - Nat.log2 w) ∧ w * 2 ^ (31 - Nat.log2 w) < 2 ^ 32 := by
  have hn : Nat.log2 w ≤ 31 := by
    have h := (Nat.log2_lt h0).mpr h2
    omega
  have hlo : 2 ^ Nat.log2 w ≤ w := Nat.log2_self_le h0
  have hhi : w < 2 ^ (Nat.log2 w + 1) := Nat.lt_log2_self
  constructor
  · have e1 : (2 : Nat) ^ 31 = 2 ^ Nat.log2 w * 2 ^ (31 - Nat.log2 w) := by
      rw [← pow_add]
      congr 1
      omega
    rw [e1]
    exact Nat.mul_le_mul_right _ hlo
  · have e2 : (2 : Nat) ^ 32 = 2 ^ (Nat.log2 w + 1) * 2 ^ (31 - Nat.log2 w) := by
      rw [← pow_add]
      congr 1
      omega
    rw [e2]
    exact mul_lt_mul_of_pos_right hhi (pow_pos (by norm_num) _)

/-- The kernel of a nonzero 32-bit value stays strictly below 32 times the
scale. -/
theorem Log2TimesPowerOfTwo_lt (w : Nat) (h0 : w ≠ 0) (h2 : w < 2 ^ 32) :
    Log2TimesPowerOfTwo w 54 < 32 * 2 ^ 54 := by
  obtain ⟨hy1, hy2⟩ := normalized_range w h0 h2
  have hfrac := Log2FracPart_le _ hy1 hy2
  have hn : Nat.log2 w ≤ 31 := by
    have h := (Nat.log2_lt h0).mpr h2
    omega
  rw [Log2TimesPowerOfTwo_eq_add]
  have : Nat.log2 w * 2 ^ 54 ≤ 31 * 2 ^ 54 := Nat.mul_le_mul_right _ hn
  omega

/-! ## Theorems: hit edge cases and target monotonicity -/

/-- C2: CalculateHit of the all-zero generation hash, and more generally of
every hash whose extracted 32-bit window is 0, is the maximum representable
64-bit value; CalculateHit of every hash whose extracted window is the
all-one word 0xFFFFFFFF is 0. -/
theorem calculateHit_edge_cases :
    CalculateHit (List.replicate 32 0) = 2 ^ 64 - 1 ∧
    ∀ generationHash : List Nat,
      ((ExtractGenerationHashInfo generationHash).Value = 0 →
        CalculateHit generationHash = 2 ^ 64 - 1) ∧
      ((ExtractGenerationHashInfo generationHash).Value = 4294967295 →
        CalculateHit generationHash = 0) := by
  refine ⟨by decide, fun generationHash => ⟨fun h0 => ?_, fun h1 => ?_⟩⟩
  · simp [CalculateHit, h0]
  · simp [CalculateHit, h1]

/-- C2 witness: the all-FF hash extracts the all-one window and hits 0. -/
theorem calculateHit_edge_cases_witness :
    (ExtractGenerationHashInfo (List.replicate 32 255)).Value = 4294967295 ∧
      CalculateHit (List.replicate 32 255) = 0 :=
  ⟨by decide, (calculateHit_edge_cases.2 (List.replicate 32 255)).2 (by decide)⟩

/-- C7 counterexample: CalculateTarget is not monotonically non-decreasing in
importance as the claim states it: with 1 elapsed second, difficulty 1, total
chain importance 1 and smoothing off, importance 5416299873972417279 (a valid
64-bit value) yields a strictly smaller target than importance 1, because the
product chain wraps at the 128-bit target width. -/
theorem calculateTarget_importance_not_monotone :
    (1 : Nat) < 5416299873972417279 ∧
      CalculateTarget 1000 1 5416299873972417279 ⟨15000, 0, 1, fun _ => 0⟩ <
        CalculateTarget 1000 1 1 ⟨15000, 0, 1, fun _ => 0⟩ := by
  constructor
  · norm_num
  · decide

/-- C7 (amended): holding elapsed time and configuration fixed,
CalculateTarget is monotonically non-decreasing in importance provided the
128-bit intermediate products do not overflow for the larger importance; and
holding elapsed time, importance and configuration fixed, it is
monotonically non-increasing in difficulty (difficulty > 0),
unconditionally. -/
theorem calculateTarget_monotone (timeSpanMillis : Nat)
    (config : BlockChainConfiguration)
    (difficulty imp1 imp2 importance d1 d2 : Nat) :
    (imp1 ≤ imp2 →
      timeSpanMillis / 1000 * imp2 < 2 ^ 128 →
      timeSpanMillis / 1000 * imp2 *
        GetMultiplier (timeSpanMillis / 1000) config < 2 ^ 128 →
      timeSpanMillis / 1000 * imp2 *
        GetMultiplier (timeSpanMillis / 1000) config * 8999999998 < 2 ^ 128 →
      CalculateTarget timeSpanMillis difficulty imp1 config ≤
        CalculateTarget timeSpanMillis difficulty imp2 config) ∧
    (0 < d1 → d1 ≤ d2 →
      CalculateTarget timeSpanMillis d2 importance config ≤
        CalculateTarget timeSpanMillis d1 importance config) := by
  constructor
  · intro h1 h2 h3 h4
    have b1 : timeSpanMillis / 1000 * imp1 ≤ timeSpanMillis / 1000 * imp2 :=
      Nat.mul_le_mul_left _ h1
    have e2 : timeSpanMillis / 1000 * imp1 % 2 ^ 128 = timeSpanMillis / 1000 * imp1 :=
      Nat.mod_eq_of_lt (lt_of_le_of_lt b1 h2)
    have e2b : timeSpanMillis / 1000 * imp2 % 2 ^ 128 = timeSpanMillis / 1000 * imp2 :=
      Nat.mod_eq_of_lt h2
    have b3 : timeSpanMillis / 1000 * imp1 * GetMultiplier (timeSpanMillis / 1000) config ≤
        timeSpanMillis / 1000 * imp2 * GetMultiplier (timeSpanMillis / 1000) config :=
      Nat.mul_le_mul_right _ b1
    have e3 : timeSpanMillis / 1000 * imp1 * GetMultiplier (timeSpanMillis / 1000) config
        % 2 ^ 128 =
        timeSpanMillis / 1000 * imp1 * GetMultiplier (timeSpanMillis / 1000) config :=
      Nat.mod_eq_of_lt (lt_of_le_of_lt b3 h3)
    have e3b : timeSpanMillis / 1000 * imp2 * GetMultiplier (timeSpanMillis / 1000) config
        % 2 ^ 128 =
        timeSpanMillis / 1000 * imp2 * GetMultiplier (timeSpanMillis / 1000) config :=
      Nat.mod_eq_of_lt h3
    have b4 : timeSpanMillis / 1000 * imp1 * GetMultiplier (timeSpanMillis / 1000) config
        * 8999999998 ≤
        timeSpanMillis / 1000 * imp2 * GetMultiplier (timeSpanMillis / 1000) config
        * 8999999998 :=
      Nat.mul_le_mul_right _ b3
    have e4 : timeSpanMillis / 1000 * imp1 * GetMultiplier (timeSpanMillis / 1000) config
        * 8999999998 % 2 ^ 128 =
        timeSpanMillis / 1000 * imp1 * GetMultiplier (timeSpanMillis / 1000) config
        * 8999999998 :=
      Nat.mod_eq_of_lt (lt_of_le_of_lt b4 h4)
    have e4b : timeSpanMillis / 1000 * imp2 * GetMultiplier (timeSpanMillis / 1000) config
        * 8999999998 % 2 ^ 128 =
        timeSpanMillis / 1000 * imp2 * GetMultiplier (timeSpanMillis / 1000) config
        * 8999999998 :=
      Nat.mod_eq_of_lt h4
    show (timeSpanMillis / 1000 * imp1 % 2 ^ 128 *
        GetMultiplier (timeSpanMillis / 1000) config % 2 ^ 128 * 8999999998 % 2 ^ 128 /
        config.TotalChainImportance / difficulty) ≤
      (timeSpanMillis / 1000 * imp2 % 2 ^ 128 *
        GetMultiplier (timeSpanMillis / 1000) config % 2 ^ 128 * 8999999998 % 2 ^ 128 /
        config.TotalChainImportance / difficulty)
    rw [e2, e2b, e3, e3b, e4, e4b]
    exact Nat.div_le_div_right (Nat.div_le_div_right b4)
  · intro hd1 hd12
    show (timeSpanMillis / 1000 * importance % 2 ^ 128 *
        GetMultiplier (timeSpanMillis / 1000) config % 2 ^ 128 * 8999999998 % 2 ^ 128 /
        config.TotalChainImportance / d2) ≤
      (timeSpanMillis / 1000 * importance % 2 ^ 128 *
        GetMultiplier (timeSpanMillis / 1000) config % 2 ^ 128 * 8999999998 % 2 ^ 128 /
        config.TotalChainImportance / d1)
    exact Nat.div_le_div_left hd12 hd1

/-- C7 (amended) witness: with 30 elapsed seconds, smoothing off, a small
total chain importance and overflow-free products, importance 3 versus 5 and
difficulty 20 versus 10 on a concrete configuration. -/
theorem calculateTarget_monotone_witness :
    (CalculateTarget 30000 100 3 ⟨15000, 0, 9000000000000000, fun _ => 0⟩ ≤
      CalculateTarget 30000 100 5 ⟨15000, 0, 9000000000000000, fun _ => 0⟩) ∧
    (CalculateTarget 30000 20 7 ⟨15000, 0, 9000000000000000, fun _ => 0⟩ ≤
      CalculateTarget 30000 10 7 ⟨15000, 0, 9000000000000000, fun _ => 0⟩) :=
  ⟨(calculateTarget_monotone 30000 ⟨15000, 0, 9000000000000000, fun _ => 0⟩
      100 3 5 7 10 20).1 (by norm_num) (by decide) (by decide) (by decide),
    (calculateTarget_monotone 30000 ⟨15000, 0, 9000000000000000, fun _ => 0⟩
      100 3 5 7 10 20).2 (by norm_num) (by norm_num)⟩

/-! ## Theorems: the hit formula -/

/-- Unfolding equation for the extraction. -/
theorem ExtractGenerationHashInfo_def (h : List Nat) : ExtractGenerationHashInfo h =
    if 224 ≤ NumLeadingZeros h then
      { Value := ExtractFromHashAtPosition h 28, NumLeadingZeros := 224 }
    else
      { Value := (ExtractFromHashAtPosition h (NumLeadingZeros h / 8) *
          2 ^ (NumLeadingZeros h % 8) % 2 ^ 32 +
          h.getD (NumLeadingZeros h / 8 + 4) 0 /
            2 ^ (8 - NumLeadingZeros h % 8)) % 2 ^ 32,
        NumLeadingZeros := NumLeadingZeros h } := rfl

/-- Unfolding equation for the hit. -/
theorem CalculateHit_def (h : List Nat) : CalculateHit h =
    if (ExtractGenerationHashInfo h).Value = 0 then 2 ^ 64 - 1
    else if (ExtractGenerationHashInfo h).Value = 4294967295 then 0
    else
      sub64 ((32 + (ExtractGenerationHashInfo h).NumLeadingZeros) * 2 ^ 54)
          (Log2TimesPowerOfTwo (ExtractGenerationHashInfo h).Value 54) *
        10000000000000000 % 2 ^ 128 / 14426950408889634 % 2 ^ 64 := rfl

/-- Every byte a valid hash yields through getD is below 256. -/
theorem getD_lt_of_forall : ∀ (l : List Nat), (∀ b ∈ l, b < 256) →
    ∀ i, l.getD i 0 < 256 := by
  intro l
  induction l with
  | nil =>
    intro _ i
    simp only [List.getD_nil]
    norm_num
  | cons a t ih =>
    intro hall i
    cases i with
    | zero => simpa using hall a (by simp)
    | succ j =>
      rw [List.getD_cons_succ]
      exact ih (fun b hb => hall b (by simp [hb])) j

/-- The extracted window of a valid hash is a 32-bit value. -/
theorem extract_value_lt (h : List Nat) (hv : ValidHash h) :
    (ExtractGenerationHashInfo h).Value < 2 ^ 32 := by
  have hb := getD_lt_of_forall h hv.2
  rw [ExtractGenerationHashInfo_def]
  split
  · show ExtractFromHashAtPosition h 28 < 2 ^ 32
    have h28 := hb 28
    have h29 := hb (28 + 1)
    have h30 := hb (28 + 2)
    have h31 := hb (28 + 3)
    simp only [ExtractFromHashAtPosition]
    omega
  · exact Nat.mod_lt _ (by norm_num)

/-- The extracted leading-zero count is at most 224. -/
theorem extract_nlz_le (h : List Nat) :
    (ExtractGenerationHashInfo h).NumLeadingZeros ≤ 224 := by
  rw [ExtractGenerationHashInfo_def]
  split
  · exact le_rfl
  · next hc =>
      show NumLeadingZeros h ≤ 224
      omega

/-- The hit of a valid hash outside the two edge windows is the scaled log
difference multiplied by the exact integer ratio, with every machine wrap
provably vacuous; the quotient fits 64 bits. -/
theorem calculateHit_eq_div (h : List Nat) (hv : ValidHash h)
    (h0 : (ExtractGenerationHashInfo h).Value ≠ 0)
    (h1 : (ExtractGenerationHashInfo h).Value ≠ 4294967295) :
    CalculateHit h =
      ((32 + (ExtractGenerationHashInfo h).NumLeadingZeros) * 2 ^ 54 -
        Log2TimesPowerOfTwo (ExtractGenerationHashInfo h).Value 54) *
        10000000000000000 / 14426950408889634 ∧
    ((32 + (ExtractGenerationHashInfo h).NumLeadingZeros) * 2 ^ 54 -
        Log2TimesPowerOfTwo (ExtractGenerationHashInfo h).Value 54) *
        10000000000000000 / 14426950408889634 < 2 ^ 64 := by
  obtain ⟨w, hw⟩ : ∃ w, (ExtractGenerationHashInfo h).Value = w := ⟨_, rfl⟩
  obtain ⟨z, hz⟩ : ∃ z, (ExtractGenerationHashInfo h).NumLeadingZeros = z := ⟨_, rfl⟩
  have hw0 : w ≠ 0 := hw ▸ h0
  have hw1 : w ≠ 4294967295 := hw ▸ h1
  have hw32 : w < 2 ^ 32 := hw ▸ extract_value_lt h hv
  have hz224 : z ≤ 224 := hz ▸ extract_nlz_le h
  obtain ⟨L, hLdef⟩ : ∃ L, Log2TimesPowerOfTwo w 54 = L := ⟨_, rfl⟩
  have hLlt : L < 32 * 2 ^ 54 := hLdef ▸ Log2TimesPowerOfTwo_lt w hw0 hw32
  have hsub : sub64 ((32 + z) * 2 ^ 54) L = (32 + z) * 2 ^ 54 - L :=
    sub64_eq_sub (by omega) (by omega)
  have hCH : CalculateHit h =
      sub64 ((32 + z) * 2 ^ 54) L * 10000000000000000 % 2 ^ 128 /
        14426950408889634 % 2 ^ 64 := by
    rw [CalculateHit_def, hw, hz, hLdef, if_neg hw0, if_neg hw1]
  obtain ⟨A, hA⟩ : ∃ A, (32 + z) * 2 ^ 54 - L = A := ⟨_, rfl⟩
  have hA62 : A ≤ 2 ^ 62 := by omega
  have hAR : A * 10000000000000000 < 2 ^ 128 := by omega
  have hdiv : A * 10000000000000000 / 14426950408889634 < 2 ^ 64 := by omega
  rw [hw, hz, hLdef, hCH, hsub, hA, Nat.mod_eq_of_lt hAR]
  exact ⟨Nat.mod_eq_of_lt hdiv, hdiv⟩

/-- C3: for every valid generation hash whose extracted window is neither 0
nor the all-one word, CalculateHit equals ((32 + numLeadingZeros) * 2^54 -
FixedPointLog2(w, 54)) multiplied by 10000000000000000 and truncating-divided
by 14426950408889634 - the exact integer ratio, not a floating reciprocal -
computed in a 128-bit intermediate and narrowed to 64 bits (both provably
without wrapping). -/
theorem calculateHit_formula (h : List Nat) (hv : ValidHash h)
    (h0 : (ExtractGenerationHashInfo h).Value ≠ 0)
    (h1 : (ExtractGenerationHashInfo h).Value ≠ 4294967295) :
    CalculateHit h =
      ((32 + (ExtractGenerationHashInfo h).NumLeadingZeros) * 2 ^ 54 -
        Log2TimesPowerOfTwo (ExtractGenerationHashInfo h).Value 54) *
        10000000000000000 / 14426950408889634 % 2 ^ 64 := by
  obtain ⟨he, hlt⟩ := calculateHit_eq_div h hv h0 h1
  rw [he, Nat.mod_eq_of_lt hlt]

/-- C3 witness: the hash with first byte 128 and the rest zero: the window is
2 to the 31, zero leading zeros, and the hit equals the formula value. -/
theorem calculateHit_formula_witness :
    ValidHash (128 :: List.replicate 31 0) ∧
    (ExtractGenerationHashInfo (128 :: List.replicate 31 0)).Value ≠ 0 ∧
    (ExtractGenerationHashInfo (128 :: List.replicate 31 0)).Value ≠ 4294967295 ∧
    CalculateHit (128 :: List.replicate 31 0) =
      ((32 + (ExtractGenerationHashInfo (128 :: List.replicate 31 0)).NumLeadingZeros) *
        2 ^ 54 -
        Log2TimesPowerOfTwo
          (ExtractGenerationHashInfo (128 :: List.replicate 31 0)).Value 54) *
        10000000000000000 / 14426950408889634 % 2 ^ 64 :=
  ⟨⟨by decide, by decide⟩, by decide, by decide,
    calculateHit_formula (128 :: List.replicate 31 0) ⟨by decide, by decide⟩
      (by decide) (by decide)⟩

/-! ## Theorems: window monotonicity of the hit -/

/-- For a hash with nonzero first byte the extraction takes the window
branch: the window has its top bit set, and the leading-zero count is the
bit position inside the first byte. -/
theorem extract_head_range (b0 : Nat) (t : List Nat) (hb0 : b0 ≠ 0)
    (hv : ValidHash (b0 :: t)) :
    2 ^ 31 ≤ (ExtractGenerationHashInfo (b0 :: t)).Value ∧
    (ExtractGenerationHashInfo (b0 :: t)).Value < 2 ^ 32 ∧
    (ExtractGenerationHashInfo (b0 :: t)).NumLeadingZeros = NumLeadingZeros (b0 :: t) ∧
    NumLeadingZeros (b0 :: t) ≤ 7 := by
  have hb256 : b0 < 256 := hv.2 b0 (by simp)
  have hnlz : NumLeadingZeros (b0 :: t) = 7 - Nat.log2 b0 := by
    show NumLeadingZerosAux 0 (b0 :: t) = 7 - Nat.log2 b0
    rw [NumLeadingZerosAux, if_pos hb0, Log2_eq_log2]
  have hlog7 : Nat.log2 b0 ≤ 7 := by
    have h := (Nat.log2_lt hb0).mpr (show b0 < 2 ^ 8 by omega)
    omega
  have hle : NumLeadingZeros (b0 :: t) ≤ 7 := by omega
  have hcond : ¬ 224 ≤ NumLeadingZeros (b0 :: t) := by omega
  have hq : NumLeadingZeros (b0 :: t) / 8 = 0 := Nat.div_eq_of_lt (by omega)
  have hr : NumLeadingZeros (b0 :: t) % 8 = 7 - Nat.log2 b0 := by
    rw [Nat.mod_eq_of_lt (by omega)]
    exact hnlz
  rw [ExtractGenerationHashInfo_def, if_neg hcond]
  refine ⟨?_, Nat.mod_lt _ (by norm_num), rfl, hle⟩
  show 2 ^ 31 ≤ (ExtractFromHashAtPosition (b0 :: t) (NumLeadingZeros (b0 :: t) / 8) *
      2 ^ (NumLeadingZeros (b0 :: t) % 8) % 2 ^ 32 +
      (b0 :: t).getD (NumLeadingZeros (b0 :: t) / 8 + 4) 0 /
        2 ^ (8 - NumLeadingZeros (b0 :: t) % 8)) % 2 ^ 32
  rw [hq, hr]
  have he : ExtractFromHashAtPosition (b0 :: t) 0 =
      b0 * 2 ^ 24 + t.getD 0 0 * 2 ^ 16 + t.getD 1 0 * 2 ^ 8 + t.getD 2 0 := rfl
  have hg4 : (b0 :: t).getD (0 + 4) 0 = t.getD 3 0 := rfl
  rw [he, hg4]
  have hvt : ∀ b ∈ t, b < 256 := fun b hb => hv.2 b (by simp [hb])
  have hc1 := getD_lt_of_forall t hvt 0
  have hc2 := getD_lt_of_forall t hvt 1
  have hc3 := getD_lt_of_forall t hvt 2
  have hc4 := getD_lt_of_forall t hvt 3
  have hlo : 2 ^ Nat.log2 b0 ≤ b0 := Nat.log2_self_le hb0
  have hhi : b0 < 2 ^ (Nat.log2 b0 + 1) := Nat.lt_log2_self
  obtain ⟨L, hLg⟩ : ∃ L, Nat.log2 b0 = L := ⟨_, rfl⟩
  rw [hLg] at hlo hhi
  rw [hLg]
  rw [hLg] at hlog7
  interval_cases L <;> omega

/-- On the window branch the hit simplifies to the leading-zero count plus
one scaled, minus the interpolated fraction, times the integer ratio. -/
theorem calculateHit_window (h : List Nat) (hv : ValidHash h)
    (h1 : 2 ^ 31 ≤ (ExtractGenerationHashInfo h).Value)
    (h2 : (ExtractGenerationHashInfo h).Value < 2 ^ 32)
    (hne : (ExtractGenerationHashInfo h).Value ≠ 4294967295) :
    CalculateHit h =
      (((ExtractGenerationHashInfo h).NumLeadingZeros + 1) * 2 ^ 54 -
        Log2FracPart (ExtractGenerationHashInfo h).Value) * 10000000000000000 /
        14426950408889634 := by
  have h0 : (ExtractGenerationHashInfo h).Value ≠ 0 := by omega
  obtain ⟨heq, _⟩ := calculateHit_eq_div h hv h0 hne
  rw [heq, Log2TimesPowerOfTwo_window _ h1 h2]
  have harith : ∀ z F : Nat,
      (32 + z) * 2 ^ 54 - (31 * 2 ^ 54 + F) = (z + 1) * 2 ^ 54 - F := by
    intro z F
    omega
  rw [harith]

/-- C8 counterexample: the hashes 80 00 .. 00 and 60 00 .. 00 both have a
nonzero first byte; the first extracts window 0x80000000, the second (with
one leading zero bit) window 0xC0000000, strictly larger, yet the hit of the
first is strictly smaller, not larger - the claim fails when the
leading-zero counts differ. -/
theorem calculateHit_window_antitone_counterexample :
    ValidHash (128 :: List.replicate 31 0) ∧
    ValidHash (96 :: List.replicate 31 0) ∧
    (128 :: List.replicate 31 0 : List Nat).getD 0 0 ≠ 0 ∧
    (96 :: List.replicate 31 0 : List Nat).getD 0 0 ≠ 0 ∧
    (ExtractGenerationHashInfo (128 :: List.replicate 31 0)).Value <
      (ExtractGenerationHashInfo (96 :: List.replicate 31 0)).Value ∧
    ¬ (CalculateHit (96 :: List.replicate 31 0) <
        CalculateHit (128 :: List.replicate 31 0)) := by
  refine ⟨⟨by decide, by decide⟩, ⟨by decide, by decide⟩, by decide, by decide,
    by decide, by decide⟩

/-- C8 (amended): for every pair of valid generation hashes with nonzero
first byte and the same number of leading zero bits, CalculateHit is
strictly decreasing in the extracted 32-bit window: a strictly smaller
window gives a strictly larger hit. -/
theorem calculateHit_window_antitone (h1 h2 : List Nat) (hv1 : ValidHash h1)
    (hv2 : ValidHash h2) (hb1 : h1.getD 0 0 ≠ 0) (hb2 : h2.getD 0 0 ≠ 0)
    (hz : NumLeadingZeros h1 = NumLeadingZeros h2)
    (hw : (ExtractGenerationHashInfo h1).Value <
      (ExtractGenerationHashInfo h2).Value) :
    CalculateHit h2 < CalculateHit h1 := by
  obtain ⟨c1, t1, rfl⟩ : ∃ b t, h1 = b :: t := by
    cases h1 with
    | nil => simp [List.getD_nil] at hb1
    | cons b t => exact ⟨b, t, rfl⟩
  obtain ⟨c2, t2, rfl⟩ : ∃ b t, h2 = b :: t := by
    cases h2 with
    | nil => simp [List.getD_nil] at hb2
    | cons b t => exact ⟨b, t, rfl⟩
  have hc1 : c1 ≠ 0 := by simpa using hb1
  have hc2 : c2 ≠ 0 := by simpa using hb2
  obtain ⟨r1lo, r1hi, r1z, _⟩ := extract_head_range c1 t1 hc1 hv1
  obtain ⟨r2lo, r2hi, r2z, _⟩ := extract_head_range c2 t2 hc2 hv2
  have hzz : (ExtractGenerationHashInfo (c1 :: t1)).NumLeadingZeros =
      (ExtractGenerationHashInfo (c2 :: t2)).NumLeadingZeros := by
    rw [r1z, r2z, hz]
  have hF1le : Log2FracPart (ExtractGenerationHashInfo (c1 :: t1)).Value ≤ 2 ^ 54 - 2 :=
    Log2FracPart_le _ r1lo r1hi
  by_cases hmax : (ExtractGenerationHashInfo (c2 :: t2)).Value = 4294967295
  · have hhit2 : CalculateHit (c2 :: t2) = 0 := by
      rw [CalculateHit_def, if_neg (by omega), if_pos hmax]
    have hform1 := calculateHit_window (c1 :: t1) hv1 r1lo r1hi (by omega)
    rw [hhit2, hform1]
    omega
  · have hne1 : (ExtractGenerationHashInfo (c1 :: t1)).Value ≠ 4294967295 := by omega
    have hform1 := calculateHit_window (c1 :: t1) hv1 r1lo r1hi hne1
    have hform2 := calculateHit_window (c2 :: t2) hv2 r2lo r2hi hmax
    have hgap := Log2FracPart_gap _ _ r1lo hw r2hi
    have hF2le : Log2FracPart (ExtractGenerationHashInfo (c2 :: t2)).Value ≤ 2 ^ 54 - 2 :=
      Log2FracPart_le _ r2lo r2hi
    rw [hform1, hform2, ← hzz]
    omega

/-- C8 (amended) witness: the hashes 80 00 .. 00 and FF FF FF FF 00 .. 00
both have zero leading zeros; the windows are 0x80000000 and 0xFFFFFFFF, and
the hit of the larger window is strictly below the hit of the smaller. -/
theorem calculateHit_window_antitone_witness :
    ValidHash (128 :: List.replicate 31 0) ∧
    ValidHash (255 :: 255 :: 255 :: 255 :: List.replicate 28 0) ∧
    NumLeadingZeros (128 :: List.replicate 31 0) =
      NumLeadingZeros (255 :: 255 :: 255 :: 255 :: List.replicate 28 0) ∧
    (ExtractGenerationHashInfo (128 :: List.replicate 31 0)).Value <
      (ExtractGenerationHashInfo (255 :: 255 :: 255 :: 255 :: List.replicate 28 0)).Value ∧
    CalculateHit (255 :: 255 :: 255 :: 255 :: List.replicate 28 0) <
      CalculateHit (128 :: List.replicate 31 0) :=
  ⟨⟨by decide, by decide⟩, ⟨by decide, by decide⟩, by decide, by decide,
    calculateHit_window_antitone (128 :: List.replicate 31 0)
      (255 :: 255 :: 255 :: 255 :: List.replicate 28 0)
      ⟨by decide, by decide⟩ ⟨by decide, by decide⟩
      (by decide) (by decide) (by decide) (by decide)⟩

end Catapult
